import Mathlib

/-!
Verification of the event-driven orchestration core of the AI-Scientist loop:
the message bus (`src/core/bus.py`), the Director state machine
(`src/core/scientist.py`) and the analysis agent (`src/agents/sci/analysis.py`),
shallowly embedded in Lean 4. Python floats are modelled as rationals, dict
payloads as structured records with the `.get` defaults folded in, and async
handlers as pure state transformers returning the list of events they publish.
-/

/-- Experiment performance metrics (`structures.Metrics`); only the fields read
by the orchestration core and the Pareto computation are carried. -/
structure Metrics where
  psnr : ℚ
  ssim : ℚ
  coverage : ℚ
  latency : ℚ
deriving DecidableEq, Repr

/-- An SCI experiment configuration (`structures.SCIConfiguration`); its fields
other than the identifier are opaque to the orchestration core, which only
counts configurations. -/
structure SCIConfiguration where
  experiment_id : String
deriving DecidableEq, Repr

/-- An experiment result (`structures.ExperimentResult`); artifacts and config
details are opaque to the core. -/
structure ExperimentResult where
  experiment_id : String
  metrics : Metrics
  status : String
deriving DecidableEq, Repr

/-- The design-space dictionary passed through `PLAN_REQUESTED` payloads;
opaque to the Director, which only forwards it. -/
structure DesignSpace where
  raw : List (String × String)
deriving DecidableEq, Repr

/-! ## Message bus (`src/core/bus.py`) -/

/-- Event envelope (`bus.Event`): topic, sender and id; the payload content is
irrelevant to the bus itself, which never inspects it. -/
structure BusEvent where
  topic : String
  sender : String
  id : String
deriving DecidableEq, Repr

/-- An async handler, modelled as a function that either completes or raises
(`Except.error` is a Python exception escaping the handler). -/
def BusHandler : Type := BusEvent → Except String Unit

/-- Outcome of one scheduled handler task after `_safe_execute` wrapping. -/
inductive ExecOutcome where
  | completed : ExecOutcome
  | loggedError (msg : String) : ExecOutcome
deriving DecidableEq

/-- Bus state: the `defaultdict(list)` subscriber registry (absent topics map
to `[]`) and the append-only history. -/
structure MessageBus where
  subscribers : String → List BusHandler
  history : List BusEvent

/-- `MessageBus.subscribe`: append the handler to the topic's list. -/
def MessageBus.subscribe (bus : MessageBus) (topic : String) (h : BusHandler) :
    MessageBus :=
  { bus with
    subscribers := fun t =>
      if t = topic then bus.subscribers t ++ [h] else bus.subscribers t }

/-- `MessageBus._safe_execute`: run the handler; an exception is caught and
logged, never re-raised. Totality of this function is the no-propagation
guarantee. -/
def safe_execute (h : BusHandler) (e : BusEvent) : ExecOutcome :=
  match h e with
  | Except.ok _ => ExecOutcome.completed
  | Except.error m => ExecOutcome.loggedError m

/-- `MessageBus.publish`: append the event to history and schedule one
`_safe_execute` task per currently subscribed handler (fire-and-forget).
The returned list holds the eventual outcome of each scheduled task, in
subscription order; `publish` itself has no error outcome. -/
def MessageBus.publish (bus : MessageBus) (e : BusEvent) :
    MessageBus × List ExecOutcome :=
  ({ bus with history := bus.history ++ [e] },
   (bus.subscribers e.topic).map (fun h => safe_execute h e))

/-! ## Analysis agent (`src/agents/sci/analysis.py`) -/

/-- Objective vector built in `_compute_pareto_front`: `[psnr, ssim, -latency]`
(latency negated so every objective is maximised). -/
structure Obj where
  psnr : ℚ
  ssim : ℚ
  negLat : ℚ
deriving DecidableEq, Repr

/-- The row `[exp.metrics.psnr, exp.metrics.ssim, -exp.metrics.latency]`. -/
def objOf (e : ExperimentResult) : Obj :=
  { psnr := e.metrics.psnr, ssim := e.metrics.ssim, negLat := -e.metrics.latency }

/-- `np.all(a >= b)` on a pair of objective rows. -/
def allGe (a b : Obj) : Bool :=
  decide (b.psnr ≤ a.psnr) && decide (b.ssim ≤ a.ssim) && decide (b.negLat ≤ a.negLat)

/-- `np.any(a > b)` on a pair of objective rows. -/
def anyGt (a b : Obj) : Bool :=
  decide (b.psnr < a.psnr) || decide (b.ssim < a.ssim) || decide (b.negLat < a.negLat)

/-- The mask `np.all(obj_matrix >= obj_i, axis=1) & np.any(obj_matrix > obj_i, axis=1)`
holds at row `a` iff `a` is ≥ the pivot in every objective and > in at least
one, i.e. `a` strictly dominates the pivot. -/
def strictlyDominates (a b : Obj) : Bool :=
  allGe a b && anyGt a b

/-- `is_pareto[dominated] = False`: clear the mask at every row that satisfies
the dominance mask against the pivot `oi`, keep the rest. -/
def clearDominating (objs : List Obj) (mask : List Bool) (oi : Obj) : List Bool :=
  List.zipWith (fun oj m => if strictlyDominates oj oi then false else m) objs mask

/-- The loop `for i, obj_i in enumerate(obj_matrix): if is_pareto[i]: ...` of
`_compute_pareto_front`, starting from an all-true mask. -/
def paretoLoop (objs : List Obj) : List Bool :=
  (List.range objs.length).foldl
    (fun mask i =>
      if mask.getD i false then
        match objs[i]? with
        | some oi => clearDominating objs mask oi
        | none => mask
      else mask)
    (List.replicate objs.length true)

/-- `AnalysisAgent._compute_pareto_front`: build the objective matrix, run the
masking loop, return the ids of the rows still marked. -/
def compute_pareto_front (experiments : List ExperimentResult) : List String :=
  match experiments with
  | [] => []
  | _ =>
    let objs := experiments.map objOf
    let mask := paretoLoop objs
    ((experiments.map (fun e => e.experiment_id)).zip mask).filterMap
      (fun p => if p.2 then some p.1 else none)

/-- Pareto front as the SPEC words it (for comparison with the source's
`compute_pareto_front`): keep exactly the experiments not strictly dominated
by any other experiment, where A dominates B iff A ≥ B in every objective of
(psnr, ssim, -latency) and A > B in at least one. -/
def specParetoFront (experiments : List ExperimentResult) : List String :=
  experiments.filterMap (fun e =>
    if experiments.any (fun o => strictlyDominates (objOf o) (objOf e)) then none
    else some e.experiment_id)

/-- Parsed result of the Pareto-verification JSON; `error` records the raw
error text of a failed LLM call or parse. -/
structure Verification where
  is_reasonable : Bool
  anomalies : List String
  suggestions : List String
  error : Option String
deriving DecidableEq, Repr

/-- A parsed-or-failed LLM JSON dictionary, as produced by the trend-analysis
and recommendation helpers: either the parsed content, or the
`{'error': str(e)}` fallback dict. -/
inductive LLMDict where
  | parsed (content : String) : LLMDict
  | errorDict (msg : String) : LLMDict
deriving DecidableEq, Repr

/-- `AnalysisAgent._llm_verify_pareto`: the try-block (LLM chat, JSON
extraction and parse, persistence of the analysis) is modelled by its outcome
`llmResult`; on any exception the handler returns
`{'is_reasonable': True, 'error': str(e)}` instead of raising. -/
def llm_verify_pareto (llmResult : Except String Verification) : Verification :=
  match llmResult with
  | Except.ok v => v
  | Except.error e =>
      { is_reasonable := true, anomalies := [], suggestions := [], error := some e }

/-- `AnalysisAgent._llm_analyze_trends`: parsed JSON on success, the
`{'error': str(e)}` dict on any exception. -/
def llm_analyze_trends (llmResult : Except String String) : LLMDict :=
  match llmResult with
  | Except.ok t => LLMDict.parsed t
  | Except.error e => LLMDict.errorDict e

/-- `AnalysisAgent._llm_generate_recommendations`: same fallback shape as the
trend analysis. -/
def llm_generate_recommendations (llmResult : Except String String) : LLMDict :=
  match llmResult with
  | Except.ok r => LLMDict.parsed r
  | Except.error e => LLMDict.errorDict e

/-- The insights dictionary returned by `AnalysisAgent.analyze` (and stored by
the Director): the initial `{}`, the insufficient-data
`{"message": "Insufficient data"}` dict, or the full report dict. -/
inductive InsightsVal where
  | emptyDict : InsightsVal
  | insufficientData : InsightsVal
  | report (pareto_ids : List String) (verification : Verification)
      (trends : LLMDict) (recommendations : LLMDict)
      (cycle : Nat) (total_experiments_analyzed : Nat) : InsightsVal
deriving DecidableEq, Repr

/-- `AnalysisAgent.analyze`. Modelled from the spec: the world model's
`get_all_experiments()` (its module is absent from the source tree) is the
ordered list `experiments` of persisted results; persistence side effects
(`save_pareto_front`, `save_llm_analysis`) and logging are I/O and carry no
returned data. The three LLM round-trips are abstracted by their outcomes.
The function is total: the guard branch returns the insufficient-data pair,
and every LLM failure is caught inside its helper. -/
def analyze (llmV : Except String Verification) (llmT : Except String String)
    (llmR : Except String String) (experiments : List ExperimentResult)
    (cycle_number : Nat) : List String × InsightsVal :=
  if experiments.length < 3 then
    ([], InsightsVal.insufficientData)
  else
    let pareto_ids := compute_pareto_front experiments
    let verification := llm_verify_pareto llmV
    let trends := llm_analyze_trends llmT
    let recommendations := llm_generate_recommendations llmR
    (pareto_ids,
     InsightsVal.report pareto_ids verification trends recommendations
       cycle_number experiments.length)

/-! ## Director state machine (`src/core/scientist.py`) -/

/-- An event delivered to one of the Director's four subscriptions, with the
payload fields the handler reads (`.get` defaults folded into the argument:
a missing `configs` is `[]`, a missing or falsy `result` is `none`, missing
`insights` is the empty dict, missing `pareto_ids` is `[]`). -/
inductive InEvent where
  | planApproved (configs : List SCIConfiguration) : InEvent
  | planRejected (feedback : String) : InEvent
  | experimentCompleted (result : Option ExperimentResult) : InEvent
  | insightGenerated (insights : InsightsVal) (pareto_ids : List String) : InEvent
deriving DecidableEq, Repr

/-- An event published by the Director (payload fields as built at the publish
site; `budget` is a Python int, so an `Int`). -/
inductive OutEvent where
  | planRequested (budget : Int) (design_space : DesignSpace) (cycle : Nat) : OutEvent
  | stateUpdated (trigger_analysis : Bool) (cycle : Nat) : OutEvent
  | planApprovedOut (configs : List SCIConfiguration) : OutEvent
deriving DecidableEq, Repr

/-- The Director's state (`AIScientist.__init__`): construction-time fields,
the cycle/budget counters, the stop latch and the final snapshot. Modelled
from the spec: the world model (its module is absent from the source tree) is
the append-only list `persisted` of results, so that `add_experiment` appends
and `len(get_all_experiments())` is `persisted.length`. -/
structure DirectorState where
  budget_max : Nat
  design_space : DesignSpace
  current_cycle : Nat
  expected_experiments : Nat
  completed_experiments_cycle : Nat
  max_cycles : Nat
  plan_retries : Nat
  stop_signal : Bool
  final_pareto : List String
  final_insights : InsightsVal
  persisted : List ExperimentResult
deriving DecidableEq, Repr

/-- `AIScientist.__init__`: counters zeroed, `max_cycles = 5`, latch unset,
empty snapshot and empty store. -/
def initDirector (budget_max : Nat) (ds : DesignSpace) : DirectorState :=
  { budget_max := budget_max
    design_space := ds
    current_cycle := 0
    expected_experiments := 0
    completed_experiments_cycle := 0
    max_cycles := 5
    plan_retries := 0
    stop_signal := false
    final_pareto := []
    final_insights := InsightsVal.emptyDict
    persisted := [] }

/-- `AIScientist._on_plan_approved`: add `len(configs)` to the expected
count. -/
def on_plan_approved (s : DirectorState) (configs : List SCIConfiguration) :
    DirectorState × List OutEvent :=
  ({ s with expected_experiments := s.expected_experiments + configs.length }, [])

/-- `AIScientist._on_plan_rejected`: below 2 retries, bump the counter and
republish `PLAN_REQUESTED` with `min(3, budget_max - len(get_all_experiments()))`;
otherwise force analysis via `STATE_UPDATED{trigger_analysis: True}`. -/
def on_plan_rejected (s : DirectorState) : DirectorState × List OutEvent :=
  if s.plan_retries < 2 then
    ({ s with plan_retries := s.plan_retries + 1 },
     [OutEvent.planRequested (min 3 ((s.budget_max : Int) - (s.persisted.length : Int)))
        s.design_space s.current_cycle])
  else
    (s, [OutEvent.stateUpdated true s.current_cycle])

/-- `AIScientist._on_experiment_completed`: a falsy `result` is ignored;
otherwise persist it, bump the per-cycle count, then publish a forced-analysis
`STATE_UPDATED` if the planned batch is drained
(`completed >= expected and expected > 0`) or, failing that, if the persisted
total has reached `budget_max`. -/
def on_experiment_completed (s : DirectorState) (result : Option ExperimentResult) :
    DirectorState × List OutEvent :=
  match result with
  | none => (s, [])
  | some r =>
    let s1 : DirectorState :=
      { s with persisted := s.persisted ++ [r],
               completed_experiments_cycle := s.completed_experiments_cycle + 1 }
    if s1.completed_experiments_cycle ≥ s1.expected_experiments ∧
        s1.expected_experiments > 0 then
      (s1, [OutEvent.stateUpdated true s1.current_cycle])
    else if s1.persisted.length ≥ s1.budget_max then
      (s1, [OutEvent.stateUpdated true s1.current_cycle])
    else
      (s1, [])

/-- `AIScientist._start_next_cycle`: increment the cycle, zero the retry and
per-cycle counters, publish `PLAN_REQUESTED` with
`min(3, budget_max - budget_used)` for the new cycle. -/
def start_next_cycle (s : DirectorState) (budget_used : Nat) :
    DirectorState × List OutEvent :=
  let s1 : DirectorState :=
    { s with current_cycle := s.current_cycle + 1,
             plan_retries := 0,
             expected_experiments := 0,
             completed_experiments_cycle := 0 }
  (s1, [OutEvent.planRequested (min 3 ((s.budget_max : Int) - (budget_used : Int)))
          s.design_space s1.current_cycle])

/-- `AIScientist._on_insight_generated`: record the snapshot; while both the
budget and the cycle ceiling leave room, start the next cycle, otherwise set
the stop latch. -/
def on_insight_generated (s : DirectorState) (insights : InsightsVal)
    (pareto : List String) : DirectorState × List OutEvent :=
  let s1 : DirectorState := { s with final_insights := insights, final_pareto := pareto }
  let budget_used := s1.persisted.length
  if budget_used < s1.budget_max ∧ s1.current_cycle < s1.max_cycles then
    start_next_cycle s1 budget_used
  else
    ({ s1 with stop_signal := true }, [])

/-- Dispatch of one delivered event to the Director's subscribed handler. -/
def directorStep (s : DirectorState) (e : InEvent) : DirectorState × List OutEvent :=
  match e with
  | InEvent.planApproved cs => on_plan_approved s cs
  | InEvent.planRejected _ => on_plan_rejected s
  | InEvent.experimentCompleted r => on_experiment_completed s r
  | InEvent.insightGenerated ins par => on_insight_generated s ins par

/-- The state reached after handling a sequence of delivered events. -/
def runTrace (s : DirectorState) : List InEvent → DirectorState
  | [] => s
  | e :: es => runTrace (directorStep s e).1 es

/-- All events the Director publishes while handling a sequence of delivered
events, in handling order. -/
def runOutputs (s : DirectorState) : List InEvent → List OutEvent
  | [] => []
  | e :: es => (directorStep s e).2 ++ runOutputs (directorStep s e).1 es

/-- The stop-latch value along a trace (initial state included). -/
def stopTrace (s : DirectorState) : List InEvent → List Bool
  | [] => [s.stop_signal]
  | e :: es => s.stop_signal :: stopTrace (directorStep s e).1 es

/-- Number of false-to-true transitions in a Boolean trace. -/
def countRises : List Bool → Nat
  | [] => 0
  | [_] => 0
  | a :: b :: rest => (if !a && b then 1 else 0) + countRises (b :: rest)

/-- Number of published `STATE_UPDATED{trigger_analysis: True}` events in an
output list. -/
def countTriggers (outs : List OutEvent) : Nat :=
  outs.countP (fun o =>
    match o with
    | OutEvent.stateUpdated true _ => true
    | _ => false)

/-- The synchronous prefix of `AIScientist.run_async`: set `max_cycles`, reset
`current_cycle` and `expected_experiments`, and publish the initial configs as
an already-approved plan. -/
def runStart (s : DirectorState) (initial_configs : List SCIConfiguration)
    (max_cycles : Nat) : DirectorState × OutEvent :=
  ({ s with max_cycles := max_cycles, current_cycle := 0, expected_experiments := 0 },
   OutEvent.planApprovedOut initial_configs)

/-- `AIScientist.run_async` end to end over a delivered-event schedule: start
from a fresh Director, publish the initial plan, handle the schedule, and
return the final snapshot once the stop latch is set — `none` models the call
still suspended on `stop_signal.wait()`. -/
def run_async_model (budget_max : Nat) (ds : DesignSpace)
    (initial_configs : List SCIConfiguration) (max_cycles : Nat)
    (events : List InEvent) : Option (List String × InsightsVal) :=
  let s0 := (runStart (initDirector budget_max ds) initial_configs max_cycles).1
  let f := runTrace s0 events
  if f.stop_signal then some (f.final_pareto, f.final_insights) else none

/-! ## Sample data used by concrete witnesses and counterexamples -/

/-- An empty design-space dictionary. -/
def dsEmpty : DesignSpace := { raw := [] }

/-- A sample configuration with a given id. -/
def sampleCfg (n : String) : SCIConfiguration := { experiment_id := n }

/-- A sample completed experiment result with the given metrics. -/
def sampleExp (n : String) (p sm l : ℚ) : ExperimentResult :=
  { experiment_id := n
    metrics := { psnr := p, ssim := sm, coverage := 0, latency := l }
    status := "completed" }

/-- Point A of the spec's Pareto test: psnr 30, ssim 0.9, latency 50. -/
def expPointA : ExperimentResult := sampleExp "A" 30 (mkRat 9 10) 50

/-- Point B of the spec's Pareto test: psnr 32, ssim 0.85, latency 60. -/
def expPointB : ExperimentResult := sampleExp "B" 32 (mkRat 85 100) 60

/-- Point C of the spec's Pareto test: psnr 28, ssim 0.8, latency 80. -/
def expPointC : ExperimentResult := sampleExp "C" 28 (mkRat 8 10) 80

/-- Whether a delivered event is an `INSIGHT_GENERATED` event. -/
def isInsightEvent : InEvent → Bool
  | InEvent.insightGenerated _ _ => true
  | _ => false

/-- A handler that always raises. -/
def busFailHandler : BusHandler := fun _ => Except.error "boom"

/-- A handler that always completes. -/
def busOkHandler : BusHandler := fun _ => Except.ok ()

/-- A bus with a failing handler followed by a healthy one on topic TOPIC. -/
def sampleBus : MessageBus :=
  { subscribers := fun t => if t = "TOPIC" then [busFailHandler, busOkHandler] else []
    history := [] }

/-- A sample event on topic TOPIC. -/
def sampleBusEvent : BusEvent := { topic := "TOPIC", sender := "tester", id := "e1" }

/-- Build a Director state field by field (used to quantify over states with
fixed per-cycle counters). -/
def mkDirectorState (bm : Nat) (ds : DesignSpace) (cc en cn mc pr : Nat)
    (stop : Bool) (fp : List String) (fi : InsightsVal)
    (ps : List ExperimentResult) : DirectorState :=
  { budget_max := bm, design_space := ds, current_cycle := cc,
    expected_experiments := en, completed_experiments_cycle := cn,
    max_cycles := mc, plan_retries := pr, stop_signal := stop,
    final_pareto := fp, final_insights := fi, persisted := ps }

/-! ## Helper lemmas about single Director steps -/

/-- No handler changes `budget_max`. -/
lemma directorStep_budget_max (s : DirectorState) (e : InEvent) :
    (directorStep s e).1.budget_max = s.budget_max := by
  cases e with
  | planApproved cs => rfl
  | planRejected f =>
      by_cases hr : s.plan_retries < 2 <;> simp [directorStep, on_plan_rejected, hr]
  | experimentCompleted r =>
      cases r with
      | none => rfl
      | some x =>
          simp only [directorStep, on_experiment_completed]
          split_ifs <;> rfl
  | insightGenerated i p =>
      simp only [directorStep, on_insight_generated, start_next_cycle]
      split_ifs <;> rfl

/-- No handler changes `max_cycles`. -/
lemma directorStep_max_cycles (s : DirectorState) (e : InEvent) :
    (directorStep s e).1.max_cycles = s.max_cycles := by
  cases e with
  | planApproved cs => rfl
  | planRejected f =>
      by_cases hr : s.plan_retries < 2 <;> simp [directorStep, on_plan_rejected, hr]
  | experimentCompleted r =>
      cases r with
      | none => rfl
      | some x =>
          simp only [directorStep, on_experiment_completed]
          split_ifs <;> rfl
  | insightGenerated i p =>
      simp only [directorStep, on_insight_generated, start_next_cycle]
      split_ifs <;> rfl

/-- A step never shrinks the persisted store. -/
lemma directorStep_persisted_le (s : DirectorState) (e : InEvent) :
    s.persisted.length ≤ (directorStep s e).1.persisted.length := by
  cases e with
  | planApproved cs => simp [directorStep, on_plan_approved]
  | planRejected f =>
      by_cases hr : s.plan_retries < 2 <;> simp [directorStep, on_plan_rejected, hr]
  | experimentCompleted r =>
      cases r with
      | none => simp [directorStep, on_experiment_completed]
      | some x =>
          simp only [directorStep, on_experiment_completed]
          split_ifs <;> simp
  | insightGenerated i p =>
      simp only [directorStep, on_insight_generated, start_next_cycle]
      split_ifs <;> simp

/-- A step never lowers the cycle counter. -/
lemma directorStep_cycle_le (s : DirectorState) (e : InEvent) :
    s.current_cycle ≤ (directorStep s e).1.current_cycle := by
  cases e with
  | planApproved cs => simp [directorStep, on_plan_approved]
  | planRejected f =>
      by_cases hr : s.plan_retries < 2 <;> simp [directorStep, on_plan_rejected, hr]
  | experimentCompleted r =>
      cases r with
      | none => simp [directorStep, on_experiment_completed]
      | some x =>
          simp only [directorStep, on_experiment_completed]
          split_ifs <;> simp
  | insightGenerated i p =>
      simp only [directorStep, on_insight_generated, start_next_cycle]
      split_ifs <;> simp

/-- If a step changes the cycle counter, the event was `INSIGHT_GENERATED`,
both ceilings had room, and the counter rose by exactly one. -/
lemma directorStep_cycle_change (s : DirectorState) (e : InEvent)
    (h : (directorStep s e).1.current_cycle ≠ s.current_cycle) :
    (directorStep s e).1.current_cycle = s.current_cycle + 1 ∧
      (∃ i p, e = InEvent.insightGenerated i p) ∧
      s.persisted.length < s.budget_max ∧ s.current_cycle < s.max_cycles := by
  cases e with
  | planApproved cs => exact absurd rfl h
  | planRejected f =>
      exfalso
      apply h
      by_cases hr : s.plan_retries < 2 <;> simp [directorStep, on_plan_rejected, hr]
  | experimentCompleted r =>
      exfalso
      apply h
      cases r with
      | none => rfl
      | some x =>
          simp only [directorStep, on_experiment_completed]
          split_ifs <;> rfl
  | insightGenerated i p =>
      simp only [directorStep, on_insight_generated, start_next_cycle] at h ⊢
      split_ifs at h ⊢ with hc
      · exact ⟨by simp, ⟨i, p, rfl⟩, hc.1, hc.2⟩
      · exact absurd rfl h

/-- Once the stop latch is set, no step clears it. -/
lemma directorStep_stop_mono (s : DirectorState) (e : InEvent)
    (h : s.stop_signal = true) : (directorStep s e).1.stop_signal = true := by
  cases e with
  | planApproved cs => simpa [directorStep, on_plan_approved] using h
  | planRejected f =>
      by_cases hr : s.plan_retries < 2 <;> simp [directorStep, on_plan_rejected, hr, h]
  | experimentCompleted r =>
      cases r with
      | none => simpa [directorStep, on_experiment_completed] using h
      | some x =>
          simp only [directorStep, on_experiment_completed]
          split_ifs <;> simpa using h
  | insightGenerated i p =>
      simp only [directorStep, on_insight_generated, start_next_cycle]
      split_ifs <;> simp [h]

/-- A step sets the latch only from the terminal branch of
`_on_insight_generated`. -/
lemma directorStep_stop_set (s : DirectorState) (e : InEvent)
    (h : (directorStep s e).1.stop_signal = true) :
    s.stop_signal = true ∨
      (∃ i p, e = InEvent.insightGenerated i p) ∧
        ¬(s.persisted.length < s.budget_max ∧ s.current_cycle < s.max_cycles) := by
  cases e with
  | planApproved cs =>
      left
      simpa [directorStep, on_plan_approved] using h
  | planRejected f =>
      left
      by_cases hr : s.plan_retries < 2 <;>
        simpa [directorStep, on_plan_rejected, hr] using h
  | experimentCompleted r =>
      left
      cases r with
      | none => simpa [directorStep, on_experiment_completed] using h
      | some x =>
          simp only [directorStep, on_experiment_completed] at h
          split_ifs at h <;> simpa using h
  | insightGenerated i p =>
      simp only [directorStep, on_insight_generated, start_next_cycle] at h
      split_ifs at h with hc
      · left
        simpa using h
      · exact Or.inr ⟨⟨i, p, rfl⟩, hc⟩

/-- `max_cycles` is invariant along any trace. -/
lemma runTrace_max_cycles (es : List InEvent) : ∀ s : DirectorState,
    (runTrace s es).max_cycles = s.max_cycles := by
  induction es with
  | nil => intro s; rfl
  | cons e es ih =>
      intro s
      rw [runTrace, ih, directorStep_max_cycles]

/-- `budget_max` is invariant along any trace. -/
lemma runTrace_budget_max (es : List InEvent) : ∀ s : DirectorState,
    (runTrace s es).budget_max = s.budget_max := by
  induction es with
  | nil => intro s; rfl
  | cons e es ih =>
      intro s
      rw [runTrace, ih, directorStep_budget_max]

/-- The cycle ceiling is preserved along any trace. -/
lemma runTrace_cycle_bound (es : List InEvent) : ∀ s : DirectorState,
    s.current_cycle ≤ s.max_cycles →
    (runTrace s es).current_cycle ≤ (runTrace s es).max_cycles := by
  induction es with
  | nil => intro s h; exact h
  | cons e es ih =>
      intro s h
      rw [runTrace]
      apply ih
      rw [directorStep_max_cycles]
      rcases eq_or_ne (directorStep s e).1.current_cycle s.current_cycle with hq | hq
      · exact hq ▸ h
      · obtain ⟨h1, _, _, hlt⟩ := directorStep_cycle_change s e hq
        omega

/-- Once the persisted total has reached `budget_max`, no later step ever
changes the cycle counter. -/
lemma runTrace_cycle_frozen (es : List InEvent) : ∀ s : DirectorState,
    s.budget_max ≤ s.persisted.length →
    (runTrace s es).current_cycle = s.current_cycle := by
  induction es with
  | nil => intro s _; rfl
  | cons e es ih =>
      intro s h
      rw [runTrace]
      have hb : (directorStep s e).1.budget_max ≤ (directorStep s e).1.persisted.length := by
        rw [directorStep_budget_max]
        exact le_trans h (directorStep_persisted_le s e)
      rw [ih _ hb]
      rcases eq_or_ne (directorStep s e).1.current_cycle s.current_cycle with hq | hq
      · exact hq
      · obtain ⟨_, _, hlt, _⟩ := directorStep_cycle_change s e hq
        omega

/-- After the latch is set, the rest of the stop trace shows no rise. -/
lemma countRises_stopped (es : List InEvent) : ∀ s : DirectorState,
    s.stop_signal = true → countRises (stopTrace s es) = 0 := by
  induction es with
  | nil => intro s h; rfl
  | cons e es ih =>
      intro s h
      have h1 : (directorStep s e).1.stop_signal = true := directorStep_stop_mono s e h
      have htl := ih (directorStep s e).1 h1
      rw [stopTrace]
      cases es with
      | nil =>
          simp [stopTrace, countRises, h, h1]
      | cons f fs =>
          rw [stopTrace] at htl ⊢
          rw [countRises, htl, h]
          simp

/-- A run that ends with the latch set saw exactly one unset-to-set
transition. -/
lemma countRises_run (es : List InEvent) : ∀ s : DirectorState,
    s.stop_signal = false → (runTrace s es).stop_signal = true →
    countRises (stopTrace s es) = 1 := by
  induction es with
  | nil =>
      intro s h hf
      rw [runTrace] at hf
      rw [h] at hf
      exact absurd hf (by simp)
  | cons e es ih =>
      intro s h hf
      rw [runTrace] at hf
      rw [stopTrace]
      cases hs1 : (directorStep s e).1.stop_signal with
      | true =>
          have htl := countRises_stopped es (directorStep s e).1 hs1
          cases es with
          | nil =>
              simp [stopTrace, countRises, h, hs1]
          | cons f fs =>
              rw [stopTrace] at htl ⊢
              rw [countRises, htl, h, hs1]
              simp
      | false =>
          have htl := ih (directorStep s e).1 hs1 hf
          cases es with
          | nil =>
              rw [runTrace] at hf
              rw [hs1] at hf
              exact absurd hf (by simp)
          | cons f fs =>
              rw [stopTrace] at htl ⊢
              rw [countRises, htl, h, hs1]
              simp

/-- C6: `publish` appends the event to history and schedules exactly one
`safe_execute` invocation per handler currently subscribed to the event's
topic (one outcome per handler, in subscription order); a handler that raises
is caught inside its wrapper, yielding a logged-error outcome instead of a
propagating exception, and every other handler's scheduled outcome is its own
`safe_execute` run, untouched by the failure. -/
theorem c6_publish_dispatch_isolated :
    ∀ (bus : MessageBus) (e : BusEvent),
      (bus.publish e).2 = (bus.subscribers e.topic).map (fun h => safe_execute h e) ∧
      (bus.publish e).2.length = (bus.subscribers e.topic).length ∧
      (bus.publish e).1.history = bus.history ++ [e] ∧
      (bus.publish e).1.subscribers = bus.subscribers ∧
      (∀ (h : BusHandler) (m : String), h e = Except.error m →
        safe_execute h e = ExecOutcome.loggedError m) ∧
      (∀ (h : BusHandler) (u : Unit), h e = Except.ok u →
        safe_execute h e = ExecOutcome.completed) := by
  intro bus e
  refine ⟨rfl, by simp [MessageBus.publish], rfl, rfl, ?_, ?_⟩
  · intro h m hm
    simp [safe_execute, hm]
  · intro h u hu
    simp [safe_execute, hu]

/-- C6 witness: on a concrete bus whose first handler raises, the failure is
logged, the sibling still runs, and both outcomes are scheduled. -/
theorem c6_witness :
    safe_execute busFailHandler sampleBusEvent = ExecOutcome.loggedError "boom" ∧
    (sampleBus.publish sampleBusEvent).2 =
      [ExecOutcome.loggedError "boom", ExecOutcome.completed] ∧
    (sampleBus.publish sampleBusEvent).2.length = 2 := by
  refine ⟨(c6_publish_dispatch_isolated sampleBus sampleBusEvent).2.2.2.2.1
    busFailHandler "boom" rfl, ?_, ?_⟩
  · rw [(c6_publish_dispatch_isolated sampleBus sampleBusEvent).1]
    rfl
  · rw [(c6_publish_dispatch_isolated sampleBus sampleBusEvent).2.1]
    rfl

/-- C7: at the spec's three test points A=(30, 0.9, 50), B=(32, 0.85, 60),
C=(28, 0.8, 80), the source's `_compute_pareto_front` returns exactly `["C"]`,
while the front the spec defines (experiments not strictly dominated by any
other) is `["A", "B"]`: the source's masking step clears the rows that
DOMINATE the pivot instead of the rows dominated by it. -/
theorem c7_pareto_front_inverted :
    compute_pareto_front [expPointA, expPointB, expPointC] = ["C"] ∧
    specParetoFront [expPointA, expPointB, expPointC] = ["A", "B"] := by
  constructor <;> decide

/-- C8: with fewer than three persisted experiments, `analyze` returns the
empty Pareto-id list together with the explicit insufficient-data insight,
whatever the LLM round-trips would have produced (in particular it cannot
raise: the guard returns before any LLM call). -/
theorem c8_insufficient_data_guard
    (llmV : Except String Verification) (llmT llmR : Except String String)
    (experiments : List ExperimentResult) (cycle_number : Nat)
    (h : experiments.length < 3) :
    analyze llmV llmT llmR experiments cycle_number =
      ([], InsightsVal.insufficientData) := by
  simp [analyze, h]

/-- C8 witness: two persisted experiments trigger the guard. -/
theorem c8_witness :
    [expPointA, expPointB].length < 3 ∧
    analyze (Except.error "down") (Except.error "down") (Except.error "down")
      [expPointA, expPointB] 1 = ([], InsightsVal.insufficientData) :=
  ⟨by decide,
   c8_insufficient_data_guard (Except.error "down") (Except.error "down")
     (Except.error "down") [expPointA, expPointB] 1 (by decide)⟩

/-- C9: when the LLM call or JSON parse inside Pareto verification fails, the
agent does not re-raise: it returns a verification dict whose
`is_reasonable` field is `True` and whose `error` field records the raw error
text. -/
theorem c9_verify_pareto_fallback (msg : String) :
    llm_verify_pareto (Except.error msg) =
      { is_reasonable := true, anomalies := [], suggestions := [],
        error := some msg } :=
  rfl

/-- C10: an `EXPERIMENT_COMPLETED` event without a truthy `result` leaves the
whole Director state (counters, latch, persisted store) unchanged and
publishes nothing. -/
theorem c10_falsy_result_ignored (s : DirectorState) :
    directorStep s (InEvent.experimentCompleted none) = (s, []) :=
  rfl

/-- A mid-batch completion with a result: persist and count, publish
nothing (batch not drained, budget not reached). -/
lemma oec_quiet (s : DirectorState) (r : ExperimentResult)
    (h1 : s.completed_experiments_cycle + 1 < s.expected_experiments)
    (h2 : s.persisted.length + 1 < s.budget_max) :
    directorStep s (InEvent.experimentCompleted (some r)) =
      ({ s with persisted := s.persisted ++ [r],
                completed_experiments_cycle := s.completed_experiments_cycle + 1 },
       []) := by
  simp only [directorStep, on_experiment_completed]
  split_ifs with hA hB
  · exfalso; omega
  · exfalso; simp at hB; omega
  · rfl

/-- A completion that drains the planned batch: persist and count, publish
the forced-analysis trigger. -/
lemma oec_done (s : DirectorState) (r : ExperimentResult)
    (h1 : s.expected_experiments ≤ s.completed_experiments_cycle + 1)
    (h2 : 0 < s.expected_experiments) :
    directorStep s (InEvent.experimentCompleted (some r)) =
      ({ s with persisted := s.persisted ++ [r],
                completed_experiments_cycle := s.completed_experiments_cycle + 1 },
       [OutEvent.stateUpdated true s.current_cycle]) := by
  simp only [directorStep, on_experiment_completed]
  split_ifs with hA hB
  · rfl
  · exfalso; omega
  · exfalso; omega

/-- C1: on `INSIGHT_GENERATED`, if the persisted total is below `budget_max`
and the cycle counter below `max_cycles`, the Director starts the next cycle
(cycle + 1, per-cycle counters and retries reset to 0, one `PLAN_REQUESTED`
published with budget `min(3, budget_max - persisted)`, latch untouched);
otherwise it sets the stop latch and publishes nothing. No other event, and
not `run_async` itself, ever sets the latch. -/
theorem c1_insight_next_cycle_or_stop (s : DirectorState) (ins : InsightsVal)
    (par : List String) :
    (s.persisted.length < s.budget_max ∧ s.current_cycle < s.max_cycles →
      (directorStep s (InEvent.insightGenerated ins par)).1.current_cycle =
          s.current_cycle + 1 ∧
      (directorStep s (InEvent.insightGenerated ins par)).1.expected_experiments = 0 ∧
      (directorStep s (InEvent.insightGenerated ins par)).1.completed_experiments_cycle
          = 0 ∧
      (directorStep s (InEvent.insightGenerated ins par)).1.plan_retries = 0 ∧
      (directorStep s (InEvent.insightGenerated ins par)).2 =
        [OutEvent.planRequested
          (min 3 ((s.budget_max : Int) - (s.persisted.length : Int)))
          s.design_space (s.current_cycle + 1)] ∧
      (directorStep s (InEvent.insightGenerated ins par)).1.stop_signal =
        s.stop_signal) ∧
    (¬(s.persisted.length < s.budget_max ∧ s.current_cycle < s.max_cycles) →
      (directorStep s (InEvent.insightGenerated ins par)).1.stop_signal = true ∧
      (directorStep s (InEvent.insightGenerated ins par)).2 = []) ∧
    (∀ e : InEvent, (directorStep s e).1.stop_signal = true →
      s.stop_signal = true ∨
        (∃ i p, e = InEvent.insightGenerated i p) ∧
          ¬(s.persisted.length < s.budget_max ∧ s.current_cycle < s.max_cycles)) ∧
    (∀ (ic : List SCIConfiguration) (mc : Nat),
      (runStart s ic mc).1.stop_signal = s.stop_signal) := by
  refine ⟨?_, ?_, ?_, ?_⟩
  · intro h
    simp only [directorStep, on_insight_generated, start_next_cycle]
    split_ifs
    simp
  · intro h
    simp only [directorStep, on_insight_generated, start_next_cycle]
    split_ifs
    simp
  · intro e he
    exact directorStep_stop_set s e he
  · intro ic mc
    rfl

/-- C1 witness: a fresh Director with budget 6 starts cycle 1 with budget 3. -/
theorem c1_witness :
    ((initDirector 6 dsEmpty).persisted.length < (initDirector 6 dsEmpty).budget_max ∧
      (initDirector 6 dsEmpty).current_cycle < (initDirector 6 dsEmpty).max_cycles) ∧
    (directorStep (initDirector 6 dsEmpty)
        (InEvent.insightGenerated InsightsVal.emptyDict [])).1.current_cycle = 1 ∧
    (directorStep (initDirector 6 dsEmpty)
        (InEvent.insightGenerated InsightsVal.emptyDict [])).2 =
      [OutEvent.planRequested 3 dsEmpty 1] := by
  have h := (c1_insight_next_cycle_or_stop (initDirector 6 dsEmpty)
    InsightsVal.emptyDict []).1 ⟨by decide, by decide⟩
  exact ⟨⟨by decide, by decide⟩, h.1, by rw [h.2.2.2.2.1]; decide⟩

/-- C2 counterexample (to the claim as stated): with `expected_experiments = 3`
and ample budget, four `EXPERIMENT_COMPLETED` events with results publish TWO
`STATE_UPDATED{trigger_analysis: true}` events — the overshoot completion
re-fires the trigger, because the batch-done test is `completed >= expected`,
not `completed == expected`. -/
theorem c2_counterexample :
    countTriggers (runOutputs (initDirector 100 dsEmpty)
      [InEvent.planApproved [sampleCfg "a", sampleCfg "b", sampleCfg "c"],
       InEvent.experimentCompleted (some expPointA),
       InEvent.experimentCompleted (some expPointB),
       InEvent.experimentCompleted (some expPointC),
       InEvent.experimentCompleted (some expPointA)]) = 2 := by
  decide

/-- C2 amended: in a fresh cycle (both per-cycle counters 0) with at least 3
experiments of budget headroom, one `PLAN_APPROVED` with 3 configs followed by
3 `EXPERIMENT_COMPLETED` events with results publishes exactly one
`STATE_UPDATED{trigger_analysis: true}`; however each FURTHER completion with
a result beyond the expected count publishes one more trigger event. -/
theorem c2_batch_trigger_and_overshoot (bm : Nat) (ds : DesignSpace)
    (cc mc pr : Nat) (stop : Bool) (fp : List String) (fi : InsightsVal)
    (ps : List ExperimentResult) (a b c : SCIConfiguration)
    (r1 r2 r3 r4 : ExperimentResult) (h3 : ps.length + 3 ≤ bm) :
    runOutputs (mkDirectorState bm ds cc 0 0 mc pr stop fp fi ps)
      [InEvent.planApproved [a, b, c],
       InEvent.experimentCompleted (some r1),
       InEvent.experimentCompleted (some r2),
       InEvent.experimentCompleted (some r3)] =
      [OutEvent.stateUpdated true cc] ∧
    (directorStep
        (runTrace (mkDirectorState bm ds cc 0 0 mc pr stop fp fi ps)
          [InEvent.planApproved [a, b, c],
           InEvent.experimentCompleted (some r1),
           InEvent.experimentCompleted (some r2),
           InEvent.experimentCompleted (some r3)])
        (InEvent.experimentCompleted (some r4))).2 =
      [OutEvent.stateUpdated true cc] := by
  have e0 : directorStep (mkDirectorState bm ds cc 0 0 mc pr stop fp fi ps)
      (InEvent.planApproved [a, b, c]) =
      (mkDirectorState bm ds cc 3 0 mc pr stop fp fi ps, []) := rfl
  have e1 : directorStep (mkDirectorState bm ds cc 3 0 mc pr stop fp fi ps)
      (InEvent.experimentCompleted (some r1)) =
      (mkDirectorState bm ds cc 3 1 mc pr stop fp fi (ps ++ [r1]), []) :=
    oec_quiet _ r1 (by show (0 : Nat) + 1 < 3; omega)
      (by show ps.length + 1 < bm; omega)
  have e2 : directorStep (mkDirectorState bm ds cc 3 1 mc pr stop fp fi (ps ++ [r1]))
      (InEvent.experimentCompleted (some r2)) =
      (mkDirectorState bm ds cc 3 2 mc pr stop fp fi (ps ++ [r1] ++ [r2]), []) :=
    oec_quiet _ r2 (by show (1 : Nat) + 1 < 3; omega)
      (by show (ps ++ [r1]).length + 1 < bm; simp; omega)
  have e3 : directorStep
      (mkDirectorState bm ds cc 3 2 mc pr stop fp fi (ps ++ [r1] ++ [r2]))
      (InEvent.experimentCompleted (some r3)) =
      (mkDirectorState bm ds cc 3 3 mc pr stop fp fi (ps ++ [r1] ++ [r2] ++ [r3]),
       [OutEvent.stateUpdated true cc]) :=
    oec_done _ r3 (by show (3 : Nat) ≤ 2 + 1; omega) (by show (0 : Nat) < 3; omega)
  have e4 : directorStep
      (mkDirectorState bm ds cc 3 3 mc pr stop fp fi (ps ++ [r1] ++ [r2] ++ [r3]))
      (InEvent.experimentCompleted (some r4)) =
      (mkDirectorState bm ds cc 3 4 mc pr stop fp fi
         (ps ++ [r1] ++ [r2] ++ [r3] ++ [r4]),
       [OutEvent.stateUpdated true cc]) :=
    oec_done _ r4 (by show (3 : Nat) ≤ 3 + 1; omega) (by show (0 : Nat) < 3; omega)
  constructor
  · simp only [runOutputs, e0, e1, e2, e3]
    simp
  · simp only [runTrace, e0, e1, e2, e3, e4]

/-- C2 witness: concrete fresh Director with budget 100. -/
theorem c2_witness :
    ([] : List ExperimentResult).length + 3 ≤ 100 ∧
    runOutputs (mkDirectorState 100 dsEmpty 0 0 0 5 0 false [] InsightsVal.emptyDict [])
      [InEvent.planApproved [sampleCfg "a", sampleCfg "b", sampleCfg "c"],
       InEvent.experimentCompleted (some expPointA),
       InEvent.experimentCompleted (some expPointB),
       InEvent.experimentCompleted (some expPointC)] =
      [OutEvent.stateUpdated true 0] :=
  ⟨by decide,
   (c2_batch_trigger_and_overshoot 100 dsEmpty 0 5 0 false [] InsightsVal.emptyDict []
     (sampleCfg "a") (sampleCfg "b") (sampleCfg "c")
     expPointA expPointB expPointC expPointA (by decide)).1⟩

/-- C3: with the retry counter at 0, the first and second `PLAN_REJECTED`
events each bump `plan_retries` and republish `PLAN_REQUESTED` with budget
`min(3, budget_max - persisted)`; the third publishes
`STATE_UPDATED{trigger_analysis: true}` instead. -/
theorem c3_plan_rejected_retry_ladder (s : DirectorState) (f1 f2 f3 : String)
    (h : s.plan_retries = 0) :
    (directorStep s (InEvent.planRejected f1)).2 =
      [OutEvent.planRequested
        (min 3 ((s.budget_max : Int) - (s.persisted.length : Int)))
        s.design_space s.current_cycle] ∧
    (directorStep s (InEvent.planRejected f1)).1.plan_retries = 1 ∧
    (directorStep (directorStep s (InEvent.planRejected f1)).1
        (InEvent.planRejected f2)).2 =
      [OutEvent.planRequested
        (min 3 ((s.budget_max : Int) - (s.persisted.length : Int)))
        s.design_space s.current_cycle] ∧
    (directorStep (directorStep s (InEvent.planRejected f1)).1
        (InEvent.planRejected f2)).1.plan_retries = 2 ∧
    (directorStep (directorStep (directorStep s (InEvent.planRejected f1)).1
        (InEvent.planRejected f2)).1 (InEvent.planRejected f3)).2 =
      [OutEvent.stateUpdated true s.current_cycle] := by
  simp [directorStep, on_plan_rejected, h]

/-- C3 witness: a fresh Director with budget 10 retries twice with budget 3,
then gives up and forces analysis. -/
theorem c3_witness :
    (initDirector 10 dsEmpty).plan_retries = 0 ∧
    (directorStep (directorStep (directorStep (initDirector 10 dsEmpty)
        (InEvent.planRejected "f1")).1 (InEvent.planRejected "f2")).1
        (InEvent.planRejected "f3")).2 =
      [OutEvent.stateUpdated true 0] :=
  ⟨rfl,
   (c3_plan_rejected_retry_ladder (initDirector 10 dsEmpty) "f1" "f2" "f3"
     rfl).2.2.2.2⟩

/-- C4 counterexample (to the claim as stated): a run in which exactly one
`INSIGHT_GENERATED` event is handled (with the budget already exhausted) and
`current_cycle` is NOT incremented — the terminal analysis sets the latch
without incrementing the cycle, so the counter does not increment exactly once
per handled insight. -/
theorem c4_counterexample :
    ([InEvent.planApproved [sampleCfg "a"],
      InEvent.experimentCompleted (some expPointA),
      InEvent.insightGenerated InsightsVal.emptyDict []].countP isInsightEvent = 1) ∧
    (runTrace (initDirector 1 dsEmpty)
        [InEvent.planApproved [sampleCfg "a"],
         InEvent.experimentCompleted (some expPointA),
         InEvent.insightGenerated InsightsVal.emptyDict []]).current_cycle ≠
      (initDirector 1 dsEmpty).current_cycle + 1 := by
  constructor <;> decide

/-- C4 amended: `current_cycle` never decreases at any step, never exceeds
`max_cycles` along any trace started within the bound, changes only while
handling an `INSIGHT_GENERATED` event — and then by exactly +1 and only when
both the budget and the cycle ceiling still have room (so at most once per
handled insight) — and once the persisted total has reached `budget_max` no
later event ever starts a new cycle. -/
theorem c4_cycle_monotone_bounded :
    (∀ (s : DirectorState) (e : InEvent),
      s.current_cycle ≤ (directorStep s e).1.current_cycle) ∧
    (∀ (s : DirectorState) (es : List InEvent), s.current_cycle ≤ s.max_cycles →
      (runTrace s es).current_cycle ≤ (runTrace s es).max_cycles) ∧
    (∀ (s : DirectorState) (e : InEvent),
      (directorStep s e).1.current_cycle ≠ s.current_cycle →
      (directorStep s e).1.current_cycle = s.current_cycle + 1 ∧
        (∃ i p, e = InEvent.insightGenerated i p) ∧
        s.persisted.length < s.budget_max ∧ s.current_cycle < s.max_cycles) ∧
    (∀ (s : DirectorState) (es : List InEvent), s.budget_max ≤ s.persisted.length →
      (runTrace s es).current_cycle = s.current_cycle) :=
  ⟨directorStep_cycle_le,
   fun s es h => runTrace_cycle_bound es s h,
   directorStep_cycle_change,
   fun s es h => runTrace_cycle_frozen es s h⟩

/-- C4 witness: with budget 1 already spent, a full run of events leaves the
cycle counter frozen at 0. -/
theorem c4_witness :
    (mkDirectorState 1 dsEmpty 0 3 1 5 0 false [] InsightsVal.emptyDict
        [expPointA]).budget_max ≤
      (mkDirectorState 1 dsEmpty 0 3 1 5 0 false [] InsightsVal.emptyDict
        [expPointA]).persisted.length ∧
    (runTrace (mkDirectorState 1 dsEmpty 0 3 1 5 0 false [] InsightsVal.emptyDict
        [expPointA])
      [InEvent.insightGenerated InsightsVal.emptyDict [],
       InEvent.planRejected "f",
       InEvent.experimentCompleted (some expPointB)]).current_cycle =
      (mkDirectorState 1 dsEmpty 0 3 1 5 0 false [] InsightsVal.emptyDict
        [expPointA]).current_cycle :=
  ⟨by decide,
   c4_cycle_monotone_bounded.2.2.2
     (mkDirectorState 1 dsEmpty 0 3 1 5 0 false [] InsightsVal.emptyDict [expPointA])
     [InEvent.insightGenerated InsightsVal.emptyDict [],
      InEvent.planRejected "f",
      InEvent.experimentCompleted (some expPointB)] (by decide)⟩

/-- C5: the stop latch starts unset, `run_async` publishes the initial configs
as a `PLAN_APPROVED` event without touching the latch, no handler ever clears
a set latch, any run whose trace ends with the latch set saw exactly one
unset-to-set transition, and the run returns — and returns the final
(pareto, insights) snapshot — only when the latch is set. -/
theorem c5_stop_latch_single_shot :
    (∀ (bm : Nat) (ds : DesignSpace), (initDirector bm ds).stop_signal = false) ∧
    (∀ (s : DirectorState) (ic : List SCIConfiguration) (mc : Nat),
      (runStart s ic mc).2 = OutEvent.planApprovedOut ic ∧
      (runStart s ic mc).1.stop_signal = s.stop_signal) ∧
    (∀ (s : DirectorState) (e : InEvent), s.stop_signal = true →
      (directorStep s e).1.stop_signal = true) ∧
    (∀ (bm : Nat) (ds : DesignSpace) (ic : List SCIConfiguration) (mc : Nat)
        (es : List InEvent),
      (runTrace (runStart (initDirector bm ds) ic mc).1 es).stop_signal = true →
      countRises (stopTrace (runStart (initDirector bm ds) ic mc).1 es) = 1) ∧
    (∀ (bm : Nat) (ds : DesignSpace) (ic : List SCIConfiguration) (mc : Nat)
        (es : List InEvent) (r : List String × InsightsVal),
      run_async_model bm ds ic mc es = some r →
      (runTrace (runStart (initDirector bm ds) ic mc).1 es).stop_signal = true ∧
      r = ((runTrace (runStart (initDirector bm ds) ic mc).1 es).final_pareto,
           (runTrace (runStart (initDirector bm ds) ic mc).1 es).final_insights)) := by
  refine ⟨fun bm ds => rfl, fun s ic mc => ⟨rfl, rfl⟩, directorStep_stop_mono, ?_, ?_⟩
  · intro bm ds ic mc es h
    exact countRises_run es _ rfl h
  · intro bm ds ic mc es r h
    by_cases hs : (runTrace (runStart (initDirector bm ds) ic mc).1 es).stop_signal = true
    · refine ⟨hs, ?_⟩
      rw [run_async_model, if_pos hs] at h
      exact (Option.some.injEq _ _).mp h |>.symm
    · rw [run_async_model, if_neg hs] at h
      exact absurd h (by simp)

/-- C5 witness: a budget-1 run that terminates shows exactly one latch
transition and returns the final snapshot. -/
theorem c5_witness :
    (runTrace (runStart (initDirector 1 dsEmpty) [sampleCfg "a"] 5).1
        [InEvent.planApproved [sampleCfg "a"],
         InEvent.experimentCompleted (some expPointA),
         InEvent.insightGenerated InsightsVal.emptyDict []]).stop_signal = true ∧
    countRises (stopTrace (runStart (initDirector 1 dsEmpty) [sampleCfg "a"] 5).1
        [InEvent.planApproved [sampleCfg "a"],
         InEvent.experimentCompleted (some expPointA),
         InEvent.insightGenerated InsightsVal.emptyDict []]) = 1 :=
  ⟨by decide,
   c5_stop_latch_single_shot.2.2.2.1 1 dsEmpty [sampleCfg "a"] 5
     [InEvent.planApproved [sampleCfg "a"],
      InEvent.experimentCompleted (some expPointA),
      InEvent.insightGenerated InsightsVal.emptyDict []] (by decide)⟩
